import Mathlib

/-!
Shallow embedding of `src/chrome-extension/assets/create_icons.py`.

The script draws square RGBA icons with the PIL library and writes them as
PNG files.  Pure drawing is embedded as functions on an `Image` record whose
pixel content is a function `Int → Int → Color`; Python integers are `Int`
and Python floor division `//` is `Int.fdiv`.  PIL primitives
(`Image.new`, `ImageDraw.rectangle`, `ImageDraw.rounded_rectangle`,
`ImageDraw.line`) are third-party library calls; they are modelled from
PIL's documented semantics: box coordinates are inclusive of both corners,
`rounded_rectangle` is the union of the two core strips and four corner
disks of the given radius, and a line of width `w` paints the integer
points of the rotated rectangle of half-width `w/2` spanned between its
endpoints (butt caps; for the perfect 45-degree diagonals drawn here this
coincides with PIL's rasterisation).  `Image.new` rejects negative
dimensions with `ValueError`; `rounded_rectangle` rejects inverted boxes
with `ValueError`; `Image.save` fails with an `OSError` when the
destination cannot be created or written.  The file system is modelled as
a writability predicate plus the list of files written, and `print` output
is collected in a list of strings.
-/

namespace CreateIcons

/-- An RGBA color; each channel is an 8-bit value 0..255, alpha 0 = fully
transparent. -/
structure Color where
  r : Int
  g : Int
  b : Int
  a : Int
deriving DecidableEq, Repr

/-- The fully transparent background `(0, 0, 0, 0)` passed to `Image.new`. -/
def transparent : Color := ⟨0, 0, 0, 0⟩

/-- `bg_color = (102, 126, 234)`, opaque (PIL fills RGB colors at full
alpha on an RGBA image). -/
def bg_color : Color := ⟨102, 126, 234, 255⟩

/-- PIL's named color `'white'` as RGBA. -/
def white : Color := ⟨255, 255, 255, 255⟩

/-- A canvas: pixel dimensions plus the pixel content. -/
structure Image where
  width : Int
  height : Int
  px : Int → Int → Color

/-- Python exceptions that the script can surface: `ValueError` raised by
PIL for invalid arguments, and `OSError` raised when the output file cannot
be created or written. -/
inductive PyError where
  | valueError
  | oserror
deriving DecidableEq, Repr

/-- Model of `Image.new('RGBA', (w, h), c)`: PIL raises `ValueError` for
negative dimensions, otherwise yields a `w × h` canvas filled with `c`
(width or height 0 is accepted and gives an empty canvas). -/
def imageNew (w h : Int) (c : Color) : Except PyError Image :=
  if w < 0 ∨ h < 0 then .error .valueError
  else .ok { width := w, height := h, px := fun _ _ => c }

/-- Membership in a PIL box `[x0, y0, x1, y1]`: both corners inclusive. -/
def inRect (x0 y0 x1 y1 x y : Int) : Bool :=
  decide (x0 ≤ x) && decide (x ≤ x1) && decide (y0 ≤ y) && decide (y ≤ y1)

/-- Membership in the closed disk of radius `r` centred at `(cx, cy)`. -/
def inDisk (cx cy r x y : Int) : Bool :=
  decide ((x - cx) * (x - cx) + (y - cy) * (y - cy) ≤ r * r)

/-- Membership in a filled rounded rectangle: inside the bounding box and
inside one of the two core strips or one of the four corner disks. -/
def inRoundedRect (x0 y0 x1 y1 r x y : Int) : Bool :=
  inRect x0 y0 x1 y1 x y &&
    (decide (x0 + r ≤ x) && decide (x ≤ x1 - r) ||
     decide (y0 + r ≤ y) && decide (y ≤ y1 - r) ||
     inDisk (x0 + r) (y0 + r) r x y || inDisk (x1 - r) (y0 + r) r x y ||
     inDisk (x0 + r) (y1 - r) r x y || inDisk (x1 - r) (y1 - r) r x y)

/-- Membership in a stroked line segment of width `w` from `(ax, ay)` to
`(bx, bz)`: the integer points of the rotated rectangle of half-width
`w / 2` between the endpoints (squared form, so exact over `Int`).  A
degenerate zero-length segment paints just its endpoint. -/
def inThickLine (ax ay bx bz w x y : Int) : Bool :=
  let dx := bx - ax
  let dy := bz - ay
  let len2 := dx * dx + dy * dy
  if len2 = 0 then decide (x = ax) && decide (y = ay)
  else
    let dot := dx * (x - ax) + dy * (y - ay)
    let cross := dx * (y - ay) - dy * (x - ax)
    decide (0 ≤ dot) && decide (dot ≤ len2) &&
      decide (4 * (cross * cross) ≤ w * w * len2)

/-- Model of `draw.rounded_rectangle([x0, y0, x1, y1], radius=r, fill=c)`:
PIL raises `ValueError` when the box is inverted, otherwise composites the
fill color over the filled rounded rectangle. -/
def drawRoundedRectangle (img : Image) (x0 y0 x1 y1 r : Int) (c : Color) :
    Except PyError Image :=
  if x1 < x0 ∨ y1 < y0 then .error .valueError
  else .ok { img with
    px := fun x y => if inRoundedRect x0 y0 x1 y1 r x y then c else img.px x y }

/-- Model of `draw.rectangle([x0, y0, x1, y1], fill=c)`. -/
def drawRectangle (img : Image) (x0 y0 x1 y1 : Int) (c : Color) : Image :=
  { img with
    px := fun x y => if inRect x0 y0 x1 y1 x y then c else img.px x y }

/-- Model of `draw.line([ax, ay, bx, bz], fill=c, width=w)`. -/
def drawLine (img : Image) (ax ay bx bz w : Int) (c : Color) : Image :=
  { img with
    px := fun x y => if inThickLine ax ay bx bz w x y then c else img.px x y }

/-- The drawing portion of `create_icon` (source lines 11-41): allocate the
transparent canvas, draw the rounded panel, the two grid bars and the two
X strokes, in that order.  Python `//` is floor division, hence
`Int.fdiv`. -/
def renderIcon (size : Int) : Except PyError Image := do
  let img ← imageNew size size transparent
  let margin := size.fdiv 8
  let img ← drawRoundedRectangle img margin margin (size - margin)
    (size - margin) (size.fdiv 6) bg_color
  let line_width := max 1 (size.fdiv 16)
  let grid_margin := size.fdiv 4
  let center := size.fdiv 2
  let img := drawRectangle img (center - line_width.fdiv 2) grid_margin
    (center + line_width.fdiv 2) (size - grid_margin) white
  let img := drawRectangle img grid_margin (center - line_width.fdiv 2)
    (size - grid_margin) (center + line_width.fdiv 2) white
  let x_size := size.fdiv 8
  let x_center_x := center + size.fdiv 8
  let x_center_y := center - size.fdiv 8
  let img := drawLine img (x_center_x - x_size) (x_center_y - x_size)
    (x_center_x + x_size) (x_center_y + x_size) line_width white
  let img := drawLine img (x_center_x - x_size) (x_center_y + x_size)
    (x_center_x + x_size) (x_center_y - x_size) line_width white
  return img

/-- The image drawn by `create_icon` for a given size (the drawing part
never fails for `0 ≤ size`, see `renderIcon_ok`); a placeholder empty
image for the failure case. -/
def iconImage (size : Int) : Image :=
  match renderIcon size with
  | .ok img => img
  | .error _ => { width := 0, height := 0, px := fun _ _ => transparent }

/-- The file system as the script sees it: which destinations can be
created/written, and the files present with their contents. -/
structure FS where
  writable : String → Bool
  files : List (String × Image)

/-- Model of `img.save(filename, 'PNG')`: raises `OSError` when the
destination cannot be created or written (nothing is written in that
case, because opening the destination is what fails); otherwise stores
the image under the filename, overwriting any previous file. -/
def save (img : Image) (filename : String) (fs : FS) : Except PyError FS :=
  if fs.writable filename then
    .ok { fs with
      files := fs.files.filter (fun p => p.1 != filename) ++ [(filename, img)] }
  else .error .oserror

/-- `create_icon(size, filename)` (source lines 9-45): draw the icon, save
it, then print the confirmation line.  The returned list holds the console
output of this call. -/
def create_icon (size : Int) (filename : String) (fs : FS) :
    Except PyError (FS × List String) := do
  let img ← renderIcon size
  let fs2 ← save img filename fs
  return (fs2, ["Created " ++ filename ++ " (" ++ toString size ++ "x" ++
    toString size ++ ")"])

/-- The fixed size list of `main` (source line 49). -/
def sizes : List Int := [16, 32, 48, 128]

/-- `f"icon{size}.png"` (source line 52). -/
def iconFilename (size : Int) : String := "icon" ++ toString size ++ ".png"

/-- The loop body of `main`: call `create_icon` for each size in order,
accumulating console output. -/
def mainLoop : List Int → FS → List String → Except PyError (FS × List String)
  | [], fs, out => .ok (fs, out)
  | s :: rest, fs, out => do
      let (fs2, printed) ← create_icon s (iconFilename s) fs
      mainLoop rest fs2 (out ++ printed)

/-- `main()` (source lines 47-55): create the four icons, then print the
summary line. -/
def main (fs : FS) : Except PyError (FS × List String) := do
  let (fs2, out) ← mainLoop sizes fs []
  return (fs2, out ++ ["All icons created successfully!"])

/-- A file system on which every destination is writable and no file
exists yet. -/
def fsAllWritable : FS := ⟨fun _ => true, []⟩

/-- Every coordinate passed to a draw call in `create_icon`, in source
order: the panel rounded rectangle, the two grid bars, the two X-glyph
strokes (source lines 18-41). -/
def drawCoords (size : Int) : List Int :=
  [size.fdiv 8, size.fdiv 8, size - size.fdiv 8, size - size.fdiv 8,
   size.fdiv 2 - (max 1 (size.fdiv 16)).fdiv 2, size.fdiv 4,
   size.fdiv 2 + (max 1 (size.fdiv 16)).fdiv 2, size - size.fdiv 4,
   size.fdiv 4, size.fdiv 2 - (max 1 (size.fdiv 16)).fdiv 2,
   size - size.fdiv 4, size.fdiv 2 + (max 1 (size.fdiv 16)).fdiv 2,
   size.fdiv 2 + size.fdiv 8 - size.fdiv 8, size.fdiv 2 - size.fdiv 8 - size.fdiv 8,
   size.fdiv 2 + size.fdiv 8 + size.fdiv 8, size.fdiv 2 - size.fdiv 8 + size.fdiv 8,
   size.fdiv 2 + size.fdiv 8 - size.fdiv 8, size.fdiv 2 - size.fdiv 8 + size.fdiv 8,
   size.fdiv 2 + size.fdiv 8 + size.fdiv 8, size.fdiv 2 - size.fdiv 8 - size.fdiv 8]

/-- The panel bounding box `[margin, size - margin]²` with
`margin = size // 8`. -/
def inPanelBox (size x y : Int) : Bool :=
  inRect (size.fdiv 8) (size.fdiv 8) (size - size.fdiv 8) (size - size.fdiv 8) x y

/-- The rounded panel shape drawn on source lines 19-23. -/
def inPanel (size x y : Int) : Bool :=
  inRoundedRect (size.fdiv 8) (size.fdiv 8) (size - size.fdiv 8)
    (size - size.fdiv 8) (size.fdiv 6) x y

/-- The union of all white-painted shapes (both grid bars and both X
strokes including stroke thickness, source lines 30-41). -/
def inWhiteLayer (size x y : Int) : Bool :=
  inRect (size.fdiv 2 - (max 1 (size.fdiv 16)).fdiv 2) (size.fdiv 4)
    (size.fdiv 2 + (max 1 (size.fdiv 16)).fdiv 2) (size - size.fdiv 4) x y ||
  inRect (size.fdiv 4) (size.fdiv 2 - (max 1 (size.fdiv 16)).fdiv 2)
    (size - size.fdiv 4) (size.fdiv 2 + (max 1 (size.fdiv 16)).fdiv 2) x y ||
  inThickLine (size.fdiv 2 + size.fdiv 8 - size.fdiv 8)
    (size.fdiv 2 - size.fdiv 8 - size.fdiv 8)
    (size.fdiv 2 + size.fdiv 8 + size.fdiv 8)
    (size.fdiv 2 - size.fdiv 8 + size.fdiv 8) (max 1 (size.fdiv 16)) x y ||
  inThickLine (size.fdiv 2 + size.fdiv 8 - size.fdiv 8)
    (size.fdiv 2 - size.fdiv 8 + size.fdiv 8)
    (size.fdiv 2 + size.fdiv 8 + size.fdiv 8)
    (size.fdiv 2 - size.fdiv 8 - size.fdiv 8) (max 1 (size.fdiv 16)) x y

/-- Check a property of every pixel of an `n × n` canvas. -/
def gridAll (n : Nat) (p : Nat → Nat → Bool) : Bool :=
  (List.range n).all fun x => (List.range n).all fun y => p x y

/-- Pixel check for C2: every canvas pixel is inside the rounded panel or
fully transparent. -/
def checkC2 (s : Int) (n : Nat) : Bool :=
  gridAll n fun x y => inPanel s x y || (((iconImage s).px x y).a == 0)

/-- Pixel check for C10: every white-painted pixel lies inside the panel
bounding box. -/
def checkC10 (s : Int) (n : Nat) : Bool :=
  gridAll n fun x y => !(inWhiteLayer s x y) || inPanelBox s x y

/-- A file system on which no destination is writable. -/
def fsNoneWritable : FS := ⟨fun _ => false, []⟩

theorem bind_ok_eq {α β : Type} (a : α) (f : α → Except PyError β) :
    (Except.ok a >>= f) = f a := rfl

theorem bind_error_eq {α β : Type} (e : PyError) (f : α → Except PyError β) :
    ((Except.error e : Except PyError α) >>= f) = Except.error e := rfl

theorem gridAll_spec (n : Nat) (p : Nat → Nat → Bool) (h : gridAll n p = true) :
    ∀ x, x < n → ∀ y, y < n → p x y = true := by
  intro x hx y hy
  have h1 := List.all_eq_true.mp h x (List.mem_range.mpr hx)
  exact List.all_eq_true.mp h1 y (List.mem_range.mpr hy)

theorem inPanel_imp_box (s x y : Int) (h : inPanel s x y = true) :
    inPanelBox s x y = true := by
  simp only [inPanel, inPanelBox, inRoundedRect, Bool.and_eq_true] at h ⊢
  exact h.1

theorem renderIcon_ok (s : Int) (hs : 0 ≤ s) :
    ∃ img, renderIcon s = .ok img ∧ img.width = s ∧ img.height = s := by
  have h8 : s.fdiv 8 = s / 8 := Int.fdiv_eq_ediv s (by norm_num)
  have e1 : imageNew s s transparent = .ok ⟨s, s, fun _ _ => transparent⟩ := by
    unfold imageNew
    rw [if_neg (by omega : ¬ (s < 0 ∨ s < 0))]
  have e2 : drawRoundedRectangle ⟨s, s, fun _ _ => transparent⟩ (s.fdiv 8)
      (s.fdiv 8) (s - s.fdiv 8) (s - s.fdiv 8) (s.fdiv 6) bg_color =
      .ok ⟨s, s, fun x y =>
        if inRoundedRect (s.fdiv 8) (s.fdiv 8) (s - s.fdiv 8) (s - s.fdiv 8)
          (s.fdiv 6) x y then bg_color else transparent⟩ := by
    unfold drawRoundedRectangle
    rw [if_neg (by rw [h8]; omega :
      ¬ (s - s.fdiv 8 < s.fdiv 8 ∨ s - s.fdiv 8 < s.fdiv 8))]
  simp only [renderIcon, e1, bind_ok_eq, e2]
  exact ⟨_, rfl, rfl, rfl⟩

theorem renderIcon_eq (s : Int) (hs : 0 ≤ s) :
    renderIcon s = .ok (iconImage s) := by
  obtain ⟨img, h, -, -⟩ := renderIcon_ok s hs
  unfold iconImage
  rw [h]

theorem iconImage_dims (s : Int) (hs : 0 ≤ s) :
    (iconImage s).width = s ∧ (iconImage s).height = s := by
  obtain ⟨img, h, hw, hh⟩ := renderIcon_ok s hs
  unfold iconImage
  rw [h]
  exact ⟨hw, hh⟩

/-- C1: for every size s in {16, 32, 48, 128}, the image produced by
`create_icon(s, filename)` (the canvas that is then saved) has exact pixel
dimensions s × s. -/
theorem c1_dimensions (s : Int) (hs : s ∈ sizes) :
    renderIcon s = .ok (iconImage s) ∧
    (iconImage s).width = s ∧ (iconImage s).height = s := by
  fin_cases hs <;>
    exact ⟨renderIcon_eq _ (by norm_num), iconImage_dims _ (by norm_num)⟩

theorem c1_dimensions_witness :
    renderIcon 16 = .ok (iconImage 16) ∧
    (iconImage 16).width = 16 ∧ (iconImage 16).height = 16 :=
  c1_dimensions 16 (by decide)

/-- C3: for every size s in {16, 32, 48, 128}, the pixel at the exact
center (s/2, s/2) of the produced image is opaque white. -/
theorem c3_center_white (s : Int) (hs : s ∈ sizes) :
    (iconImage s).px (s.fdiv 2) (s.fdiv 2) = white := by
  fin_cases hs <;> rfl

theorem c3_center_white_witness :
    (iconImage 16).px ((16 : Int).fdiv 2) ((16 : Int).fdiv 2) = white :=
  c3_center_white 16 (by decide)

/-- C4: for every size s in the supported set {16, 32, 48, 128}, every
coordinate of every drawn shape (panel rounded rectangle, the two grid
bars, the two X-glyph strokes) is non-negative and strictly less than s. -/
theorem c4_coords_in_bounds (s : Int) (hs : s ∈ sizes) :
    ∀ c ∈ drawCoords s, 0 ≤ c ∧ c < s := by
  fin_cases hs <;> decide

theorem c4_coords_in_bounds_witness : 0 ≤ (2 : Int) ∧ (2 : Int) < 16 :=
  c4_coords_in_bounds 16 (by decide) 2 (by decide)

set_option maxRecDepth 16000 in
theorem checkC2_16 : checkC2 16 16 = true := by rfl

set_option maxRecDepth 16000 in
theorem checkC2_32 : checkC2 32 32 = true := by rfl

set_option maxRecDepth 16000 in
set_option maxHeartbeats 1000000 in
theorem checkC2_48 : checkC2 48 48 = true := by rfl

set_option maxRecDepth 16000 in
set_option maxHeartbeats 4000000 in
theorem checkC2_128 : checkC2 128 128 = true := by rfl

set_option maxRecDepth 16000 in
theorem checkC10_16 : checkC10 16 16 = true := by rfl

set_option maxRecDepth 16000 in
theorem checkC10_32 : checkC10 32 32 = true := by rfl

set_option maxRecDepth 16000 in
set_option maxHeartbeats 1000000 in
theorem checkC10_48 : checkC10 48 48 = true := by rfl

set_option maxRecDepth 16000 in
set_option maxHeartbeats 4000000 in
theorem checkC10_128 : checkC10 128 128 = true := by rfl

theorem c2_aux (s : Int) (n : Nat) (hsn : s = n) (h : checkC2 s n = true) :
    ∀ x y : Nat, (x : Int) < s → (y : Int) < s →
      (inPanelBox s x y = false ∨ inPanel s x y = false) →
      ((iconImage s).px x y).a = 0 := by
  intro x y hx hy hcond
  have hb := gridAll_spec n _ h x (by omega) y (by omega)
  have hp : inPanel s x y = false := by
    rcases hcond with hbox | hpan
    · cases hpx : inPanel s (x : Int) (y : Int)
      · rfl
      · rw [inPanel_imp_box s x y hpx] at hbox
        exact absurd hbox (by simp)
    · exact hpan
  rw [hp] at hb
  simpa using hb

theorem c10_aux (s : Int) (n : Nat) (hsn : s = n) (h : checkC10 s n = true) :
    ∀ x y : Nat, (x : Int) < s → (y : Int) < s →
      inWhiteLayer s x y = true → inPanelBox s x y = true := by
  intro x y hx hy hwhite
  have hb := gridAll_spec n _ h x (by omega) y (by omega)
  rw [hwhite] at hb
  simpa using hb

/-- C2: for every size s in {16, 32, 48, 128}, every canvas pixel strictly
outside the panel bounding box [margin, size-margin]² (margin = size // 8),
and every canvas pixel outside the rounded panel shape, is fully
transparent (alpha = 0). -/
theorem c2_outside_panel_transparent (s : Int) (hs : s ∈ sizes) :
    ∀ x y : Nat, (x : Int) < s → (y : Int) < s →
      (inPanelBox s x y = false ∨ inPanel s x y = false) →
      ((iconImage s).px x y).a = 0 := by
  fin_cases hs
  · exact c2_aux _ 16 (by norm_num) checkC2_16
  · exact c2_aux _ 32 (by norm_num) checkC2_32
  · exact c2_aux _ 48 (by norm_num) checkC2_48
  · exact c2_aux _ 128 (by norm_num) checkC2_128

theorem c2_outside_panel_transparent_witness :
    ((iconImage 16).px ((0 : Nat) : Int) ((0 : Nat) : Int)).a = 0 :=
  c2_outside_panel_transparent 16 (by decide) 0 0 (by norm_num) (by norm_num)
    (by decide)

/-- C10: for every size s in {16, 32, 48, 128}, every pixel painted white
(the two grid bars and the two X strokes, stroke thickness included) lies
within the panel bounding box [margin, size-margin]² with
margin = size // 8. -/
theorem c10_white_within_panel_box (s : Int) (hs : s ∈ sizes) :
    ∀ x y : Nat, (x : Int) < s → (y : Int) < s →
      inWhiteLayer s x y = true → inPanelBox s x y = true := by
  fin_cases hs
  · exact c10_aux _ 16 (by norm_num) checkC10_16
  · exact c10_aux _ 32 (by norm_num) checkC10_32
  · exact c10_aux _ 48 (by norm_num) checkC10_48
  · exact c10_aux _ 128 (by norm_num) checkC10_128

theorem c10_white_within_panel_box_witness :
    inPanelBox 16 ((8 : Nat) : Int) ((8 : Nat) : Int) = true :=
  c10_white_within_panel_box 16 (by decide) 8 8 (by norm_num) (by norm_num)
    (by decide)

/-- C5: for every positive integer size, the drawing portion of
`create_icon` raises no error (it yields an image) and every computed
shape coordinate is non-negative, even when the integer-division derived
quantities truncate to 0 and some shapes degenerate. -/
theorem c5_positive_size_safe (s : Int) (hs : 1 ≤ s) :
    (∃ img, renderIcon s = .ok img) ∧ ∀ c ∈ drawCoords s, 0 ≤ c := by
  have h2 : s.fdiv 2 = s / 2 := Int.fdiv_eq_ediv s (by norm_num)
  have h4 : s.fdiv 4 = s / 4 := Int.fdiv_eq_ediv s (by norm_num)
  have h8 : s.fdiv 8 = s / 8 := Int.fdiv_eq_ediv s (by norm_num)
  have h16 : s.fdiv 16 = s / 16 := Int.fdiv_eq_ediv s (by norm_num)
  have hw : (max 1 (s / 16)).fdiv 2 = max 1 (s / 16) / 2 :=
    Int.fdiv_eq_ediv _ (by norm_num)
  refine ⟨⟨iconImage s, renderIcon_eq s (by omega)⟩, ?_⟩
  intro c hc
  simp only [drawCoords, List.mem_cons, List.not_mem_nil, or_false] at hc
  rcases hc with rfl | rfl | rfl | rfl | rfl | rfl | rfl | rfl | rfl | rfl |
    rfl | rfl | rfl | rfl | rfl | rfl | rfl | rfl | rfl | rfl <;>
    simp only [h2, h4, h8, h16, hw] <;> omega

theorem c5_positive_size_safe_witness :
    ((∃ img, renderIcon 1 = .ok img) ∧ ∀ c ∈ drawCoords 1, 0 ≤ c) :=
  c5_positive_size_safe 1 (by norm_num)

/-- C6 (amended): `create_icon` performs no size validation of its own.
For size < 0 it fails before any drawing or write because the canvas
allocation rejects negative dimensions (PIL `ValueError`), so no output
file is produced; for size ≥ 0 — in particular size = 0 — allocation
succeeds and the drawing portion completes without any size error. -/
theorem c6_no_size_validation (s : Int) (fn : String) (fs : FS) :
    (s < 0 → create_icon s fn fs = .error .valueError) ∧
    (0 ≤ s → ∃ img, renderIcon s = .ok img) := by
  constructor
  · intro hneg
    have e1 : imageNew s s transparent = .error .valueError := by
      unfold imageNew
      rw [if_pos (Or.inl hneg)]
    simp only [create_icon, renderIcon, e1, bind_error_eq]
  · intro hs
    exact ⟨iconImage s, renderIcon_eq s hs⟩

theorem c6_no_size_validation_witness :
    create_icon (-5) ("icon-5.png") fsAllWritable = .error .valueError :=
  (c6_no_size_validation (-5) ("icon-5.png") fsAllWritable).1 (by norm_num)

/-- C6 counterexample: at size = 0 the renderer does not fail — the canvas
allocation accepts a 0 × 0 canvas and the whole drawing portion completes,
so no `InvalidSizeError`-like failure is surfaced immediately, contrary to
the claim for size ≤ 0. -/
theorem c6_counterexample : ∃ img, renderIcon 0 = Except.ok img := ⟨_, rfl⟩

/-- C7: for every valid size and every destination that cannot be created
or written, `create_icon` fails with the write error and stores nothing
(the error return carries no file-system state), while the in-memory
drawing itself completes. -/
theorem c7_write_error (s : Int) (hs : 0 ≤ s) (fn : String) (fs : FS)
    (hw : fs.writable fn = false) :
    create_icon s fn fs = .error .oserror ∧ ∃ img, renderIcon s = .ok img := by
  refine ⟨?_, ⟨iconImage s, renderIcon_eq s hs⟩⟩
  have e2 : save (iconImage s) fn fs = .error .oserror := by
    unfold save
    rw [if_neg (by simp [hw])]
  simp only [create_icon, renderIcon_eq s hs, bind_ok_eq, e2, bind_error_eq]

theorem c7_write_error_witness :
    create_icon 16 ("icon16.png") fsNoneWritable = .error .oserror ∧
    ∃ img, renderIcon 16 = .ok img :=
  c7_write_error 16 (by norm_num) ("icon16.png") fsNoneWritable rfl

/-- C8: rendering is deterministic in the size alone — two invocations of
`create_icon` with the same size, to any two writable destinations on any
two file systems, store one and the same image (hence pixel-identical
content). -/
theorem c8_deterministic (s : Int) (hs : 0 ≤ s) (f1 f2 : String)
    (fs1 fs2 : FS) (h1 : fs1.writable f1 = true) (h2 : fs2.writable f2 = true) :
    ∃ img fsa fsb out1 out2,
      create_icon s f1 fs1 = .ok (fsa, out1) ∧
      create_icon s f2 fs2 = .ok (fsb, out2) ∧
      (∃ pre, fsa.files = pre ++ [(f1, img)]) ∧
      (∃ pre, fsb.files = pre ++ [(f2, img)]) := by
  have mk : ∀ (fn : String) (fs : FS), fs.writable fn = true →
      create_icon s fn fs = .ok
        (⟨fs.writable, fs.files.filter (fun p => p.1 != fn) ++
          [(fn, iconImage s)]⟩,
         ["Created " ++ fn ++ " (" ++ toString s ++ "x" ++ toString s ++ ")"]) := by
    intro fn fs hwr
    have e2 : save (iconImage s) fn fs = .ok
        ⟨fs.writable, fs.files.filter (fun p => p.1 != fn) ++
          [(fn, iconImage s)]⟩ := by
      unfold save
      rw [if_pos hwr]
    simp only [create_icon, renderIcon_eq s hs, bind_ok_eq, e2]
    rfl
  exact ⟨iconImage s, _, _, _, _, mk f1 fs1 h1, mk f2 fs2 h2, ⟨_, rfl⟩, ⟨_, rfl⟩⟩

theorem c8_deterministic_witness :
    ∃ img fsa fsb out1 out2,
      create_icon 16 ("a.png") fsAllWritable = .ok (fsa, out1) ∧
      create_icon 16 ("b.png") fsAllWritable = .ok (fsb, out2) ∧
      (∃ pre, fsa.files = pre ++ [(("a.png" : String), img)]) ∧
      (∃ pre, fsb.files = pre ++ [(("b.png" : String), img)]) :=
  c8_deterministic 16 (by norm_num) ("a.png") ("b.png") fsAllWritable
    fsAllWritable rfl rfl

/-- C9: running the driver on a fresh writable working directory produces
exactly the four files icon16.png, icon32.png, icon48.png, icon128.png in
that order, and prints exactly five console lines: one
"Created {filename} ({size}x{size})" line per size in the order
16, 32, 48, 128 followed by "All icons created successfully!". -/
theorem c9_driver_output :
    ∃ fsOut,
      main fsAllWritable = .ok (fsOut,
        ["Created icon16.png (16x16)", "Created icon32.png (32x32)",
         "Created icon48.png (48x48)", "Created icon128.png (128x128)",
         "All icons created successfully!"]) ∧
      fsOut.files.map Prod.fst =
        ["icon16.png", "icon32.png", "icon48.png", "icon128.png"] :=
  ⟨_, rfl, rfl⟩

end CreateIcons
